import Mathlib

namespace Spaza

/-!
Verification development for the stock-ledger subsystem of a multi-tenant
point-of-sale/inventory backend.  The definitions below are a shallow
embedding of `src/lib/stock.ts` (the Stock Ledger Engine and the Reorder
Advisor) together with the core of the `POST /api/products/[id]/adjust-stock`
route.  Database state is passed explicitly; the Prisma interactive
transaction is embedded as commit-on-success / rollback-on-throw; JS numbers
(`DOUBLE PRECISION` columns) are modelled as `ℤ`: every quantity computation in the subsystem is addition, subtraction, negation, `abs`, `max` or an order comparison, so the claims are representation-independent; thrown `StockError`
instances are modelled as an inductive with one constructor per throw site,
each carrying the data interpolated into the thrown message.
-/

deriving instance DecidableEq for Except

/-- The `StockMovementType` Prisma enum.  At runtime the enum values are
strings, so a value outside the five declared constants can reach
`createStockMovement` (the `default` arm of its `switch`); `OTHER s` models
such a value. -/
inductive StockMovementType where
  | PURCHASE
  | SALE
  | SERVICE_USAGE
  | ADJUSTMENT
  | RETURN
  | OTHER (s : String)
deriving DecidableEq, Repr

/-- The runtime string of a movement-type value. -/
def StockMovementType.str : StockMovementType → String
  | .PURCHASE => "PURCHASE"
  | .SALE => "SALE"
  | .SERVICE_USAGE => "SERVICE_USAGE"
  | .ADJUSTMENT => "ADJUSTMENT"
  | .RETURN => "RETURN"
  | .OTHER s => s

/-- A `Product` row, restricted to the columns the stock subsystem reads or
writes (`id`, `businessId`, `name`, `quantity`, `isConsumable`, `isActive`,
`reorderThreshold`, `optimalQuantity`, `sku`, `unitOfMeasure`). -/
structure Product where
  id : String
  businessId : String
  name : String
  quantity : ℤ
  isConsumable : Bool
  isActive : Bool
  reorderThreshold : Option ℤ
  optimalQuantity : Option ℤ
  sku : String
  unitOfMeasure : String
deriving DecidableEq, Repr

/-- A `StockMovement` row as written by `tx.stockMovement.create`. -/
structure StockMovement where
  productId : String
  type : StockMovementType
  quantity : ℤ
  previousQuantity : ℤ
  newQuantity : ℤ
  businessId : String
  createdById : String
  notes : Option String
  referenceId : Option String
  referenceType : Option String
deriving DecidableEq, Repr

/-- The slice of database state the stock subsystem touches. -/
structure DB where
  products : List Product
  movements : List StockMovement
deriving DecidableEq, Repr

/-- The `StockMovementParams` interface of `createStockMovement`. -/
structure StockMovementParams where
  productId : String
  businessId : String
  userId : String
  type : StockMovementType
  quantity : ℤ
  notes : Option String := none
  referenceId : Option String := none
  referenceType : Option String := none
deriving DecidableEq, Repr

/-- The errors thrown by the stock subsystem.  The source has a single class
`StockError extends Error`; its five throw sites are distinguished only by
the message they carry, so each constructor stands for one throw site and
carries the data interpolated into that message. -/
inductive StockErr where
  | quantityNotPositive
  | productNotFound
  | foreignBusiness
  | insufficientStock (available required : ℤ)
  | invalidType (t : StockMovementType)
deriving DecidableEq, Repr

/-- The runtime `name` field of a thrown error: the `StockError` constructor
sets `this.name = 'StockError'` unconditionally, so every failure kind
carries the same type tag. -/
def StockErr.errName : StockErr → String := fun _ => "StockError"

/-- The `message` carried by each throw site. -/
def StockErr.message : StockErr → String
  | .quantityNotPositive => "Quantity must be greater than 0"
  | .productNotFound => "Product not found"
  | .foreignBusiness => "Product does not belong to this business"
  | .insufficientStock available required =>
      "Insufficient stock. Available: " ++ toString available ++
        ", Required: " ++ toString required
  | .invalidType t => "Invalid stock movement type: " ++ t.str

/-- The `{id, name, previousQuantity, newQuantity}` summary returned next to
the created movement. -/
structure ProductSummary where
  id : String
  name : String
  previousQuantity : ℤ
  newQuantity : ℤ
deriving DecidableEq, Repr

/-- The value returned by a successful `createStockMovement` call. -/
structure MovementResult where
  stockMovement : StockMovement
  product : ProductSummary
deriving DecidableEq, Repr

/-- `tx.product.findUnique({ where: { id } })`. -/
def DB.findProduct (db : DB) (productId : String) : Option Product :=
  db.products.find? (fun p => p.id == productId)

/-- Step 3 of `createStockMovement`: the `switch (type)` computing
`newQuantity`, including the floor check
`newQuantity < 0 && type !== ADJUSTMENT` and the `default` arm. -/
def computeNewQuantity (current quantity : ℤ) (type : StockMovementType) :
    Except StockErr ℤ :=
  match type with
  | .PURCHASE | .RETURN => .ok (current + quantity)
  | .SALE | .SERVICE_USAGE | .ADJUSTMENT =>
      let newQuantity := current - quantity
      if newQuantity < 0 ∧ type ≠ .ADJUSTMENT then
        .error (.insufficientStock current quantity)
      else
        .ok newQuantity
  | .OTHER s => .error (.invalidType (.OTHER s))

/-- The body of the `prisma.$transaction` callback in `createStockMovement`:
product lookup, tenant check, quantity computation, movement insert, and
product-quantity update, in source order.  A returned `.error` models a
thrown `StockError`, which aborts the transaction. -/
def createStockMovementTx (db : DB) (p : StockMovementParams) :
    Except StockErr (DB × MovementResult) :=
  match db.findProduct p.productId with
  | none => .error .productNotFound
  | some product =>
    if product.businessId ≠ p.businessId then
      .error .foreignBusiness
    else
      match computeNewQuantity product.quantity p.quantity p.type with
      | .error e => .error e
      | .ok newQuantity =>
        let movement : StockMovement :=
          { productId := p.productId
            type := p.type
            quantity := p.quantity
            previousQuantity := product.quantity
            newQuantity := newQuantity
            businessId := p.businessId
            createdById := p.userId
            notes := p.notes
            referenceId := p.referenceId
            referenceType := p.referenceType }
        let dbAfter : DB :=
          { products := db.products.map (fun q =>
              if q.id == p.productId then { q with quantity := newQuantity } else q)
            movements := db.movements ++ [movement] }
        .ok (dbAfter,
          { stockMovement := movement
            product :=
              { id := product.id
                name := product.name
                previousQuantity := product.quantity
                newQuantity := newQuantity } })

/-- `createStockMovement`: the quantity validation thrown before the
transaction is opened, then the transaction, committing the new state on
success and rolling the state back on any thrown error. -/
def createStockMovement (db : DB) (p : StockMovementParams) :
    DB × Except StockErr MovementResult :=
  if p.quantity ≤ 0 then
    (db, .error .quantityNotPositive)
  else
    match createStockMovementTx db p with
    | .ok (dbAfter, r) => (dbAfter, .ok r)
    | .error e => (db, .error e)

/-- JS `s || d` for an optional string: `undefined` and `""` are falsy. -/
def jsOr (s : Option String) (d : String) : String :=
  match s with
  | some v => if v = "" then d else v
  | none => d

/-- JS truthiness of an optional string (`undefined` and `""` are falsy). -/
def strTruthy : Option String → Bool
  | some v => v ≠ ""
  | none => false

/-- `addStock`: PURCHASE with a default note. -/
def addStock (db : DB) (productId businessId userId : String) (quantity : ℤ)
    (notes : Option String := none) : DB × Except StockErr MovementResult :=
  createStockMovement db
    { productId := productId
      businessId := businessId
      userId := userId
      type := .PURCHASE
      quantity := quantity
      notes := some (jsOr notes "Stock purchase") }

/-- `sellProduct`: SALE, optionally tagged with a sale reference. -/
def sellProduct (db : DB) (productId businessId userId : String) (quantity : ℤ)
    (saleId : Option String := none) (notes : Option String := none) :
    DB × Except StockErr MovementResult :=
  createStockMovement db
    { productId := productId
      businessId := businessId
      userId := userId
      type := .SALE
      quantity := quantity
      notes := some (jsOr notes "Product sale")
      referenceId := saleId
      referenceType := if strTruthy saleId then some "sale" else none }

/-- `useProductInService`: SERVICE_USAGE, optionally tagged with a
service-sale reference. -/
def useProductInService (db : DB) (productId businessId userId : String)
    (quantity : ℤ) (serviceSaleId : Option String := none)
    (notes : Option String := none) : DB × Except StockErr MovementResult :=
  createStockMovement db
    { productId := productId
      businessId := businessId
      userId := userId
      type := .SERVICE_USAGE
      quantity := quantity
      notes := some (jsOr notes "Service usage")
      referenceId := serviceSaleId
      referenceType := if strTruthy serviceSaleId then some "service_sale" else none }

/-- `adjustStock`: ADJUSTMENT with `Math.abs(quantity)` as magnitude and a
note describing the signed input (`quantity >= 0 ? 'Added' : 'Deducted'`). -/
def adjustStock (db : DB) (productId businessId userId : String) (quantity : ℤ)
    (reason : String) : DB × Except StockErr MovementResult :=
  createStockMovement db
    { productId := productId
      businessId := businessId
      userId := userId
      type := .ADJUSTMENT
      quantity := |quantity|
      notes := some ("Stock adjustment: " ++ reason ++ ". " ++
        (if 0 ≤ quantity then "Added" else "Deducted") ++ " " ++
        toString (|quantity|) ++ " units.") }

/-- The record returned by `checkReorderStatus` (the selected product columns
plus the derived fields). -/
structure ReorderStatus where
  id : String
  name : String
  quantity : ℤ
  reorderThreshold : Option ℤ
  optimalQuantity : Option ℤ
  sku : String
  needsReorder : Bool
  reorderAmount : ℤ
  status : String
deriving DecidableEq, Repr

/-- `checkReorderStatus`: read-only derivation over one product. -/
def checkReorderStatus (db : DB) (productId : String) :
    Except StockErr ReorderStatus :=
  match db.findProduct productId with
  | none => .error .productNotFound
  | some product =>
    let needsReorder : Bool :=
      match product.reorderThreshold with
      | none => false
      | some threshold => decide (product.quantity ≤ threshold)
    let reorderAmount : ℤ :=
      match product.optimalQuantity with
      | none => 0
      | some optimal => max 0 (optimal - product.quantity)
    .ok
      { id := product.id
        name := product.name
        quantity := product.quantity
        reorderThreshold := product.reorderThreshold
        optimalQuantity := product.optimalQuantity
        sku := product.sku
        needsReorder := needsReorder
        reorderAmount := reorderAmount
        status := if needsReorder then "LOW_STOCK" else "OK" }

/-- One entry of the `getLowStockProducts` result. -/
structure LowStockItem where
  id : String
  name : String
  sku : String
  quantity : ℤ
  reorderThreshold : Option ℤ
  optimalQuantity : Option ℤ
  unitOfMeasure : String
  needsReorder : Bool
  reorderAmount : ℤ
  status : String
deriving DecidableEq, Repr

/-- The `where` clause of the `getLowStockProducts` query: same business,
active, threshold not null, and `quantity <= reorderThreshold` evaluated
row-wise against the threshold column. -/
def lowStockFilter (businessId : String) (p : Product) : Bool :=
  p.businessId == businessId && p.isActive &&
    match p.reorderThreshold with
    | none => false
    | some threshold => decide (p.quantity ≤ threshold)

/-- `getLowStockProducts`: the filtered query ordered by `quantity`
ascending, truncated to `limit` (default 20) rows, each annotated with the
derived fields.  Note the source computes `reorderAmount` with
`product.optimalQuantity ? ... : 0`, i.e. JS truthiness, under which a
configured optimal quantity of `0` (like `null`) selects the `0` branch. -/
def getLowStockProducts (db : DB) (businessId : String) (limit : Nat := 20) :
    List LowStockItem :=
  let matching := db.products.filter (lowStockFilter businessId)
  let ordered := List.insertionSort (fun a b => a.quantity ≤ b.quantity) matching
  (ordered.take limit).map (fun product =>
    { id := product.id
      name := product.name
      sku := product.sku
      quantity := product.quantity
      reorderThreshold := product.reorderThreshold
      optimalQuantity := product.optimalQuantity
      unitOfMeasure := product.unitOfMeasure
      needsReorder := true
      reorderAmount :=
        match product.optimalQuantity with
        | none => 0
        | some optimal => if optimal ≠ 0 then max 0 (optimal - product.quantity) else 0
      status := "LOW_STOCK" })

/-- Failure modes of the adjust-stock route visible to its client. -/
inductive RouteErr where
  | invalidBody
  | notFound404
  | stockFailure (e : StockErr)
deriving DecidableEq, Repr

/-- The success payload assembled by the adjust-stock route. -/
structure RouteOk where
  message : String
  stockMovement : StockMovement
  product : ProductSummary
  originalQuantity : ℤ
  absoluteQuantity : ℤ
  isAddition : Bool
  reason : String
deriving DecidableEq, Repr

/-- Core of `POST /api/products/[id]/adjust-stock` after authentication: the
zod body validation (`quantity` nonzero, `reason` nonempty), the pre-lookup
of the product scoped to the caller's business, the delegation to
`adjustStock` with `Math.abs(quantity)`, and the response assembly. -/
def adjustStockRoute (db : DB) (productId businessId userId : String)
    (quantity : ℤ) (reason : String) : DB × Except RouteErr RouteOk :=
  if quantity = 0 ∨ reason = "" then
    (db, .error .invalidBody)
  else
    match db.products.find? (fun p => p.id == productId && p.businessId == businessId) with
    | none => (db, .error .notFound404)
    | some _ =>
      let isAddition : Bool := decide (0 < quantity)
      let absoluteQuantity := |quantity|
      match adjustStock db productId businessId userId absoluteQuantity
          ((if isAddition then "Added" else "Deducted") ++ " " ++
            toString absoluteQuantity ++ " units: " ++ reason) with
      | (dbAfter, .ok result) =>
        (dbAfter, .ok
          { message := "Stock " ++ (if isAddition then "added" else "deducted") ++
              " successfully"
            stockMovement := result.stockMovement
            product := result.product
            originalQuantity := quantity
            absoluteQuantity := absoluteQuantity
            isAddition := isAddition
            reason := reason })
      | (dbAfter, .error e) => (dbAfter, .error (.stockFailure e))

/-- Applying a sequence of `createStockMovement` calls; a failed call leaves
the state unchanged (its transaction rolled back). -/
def runCalls (db : DB) (calls : List StockMovementParams) : DB :=
  calls.foldl (fun d ps => (createStockMovement d ps).1) db

/-- Primary-key uniqueness of product ids. -/
def DB.uniqueIds (db : DB) : Prop :=
  db.products.Pairwise (fun a b => a.id ≠ b.id)

/-- Shared concrete fixture: a product at quantity 10, threshold 5,
optimal 30, owned by business `B`. -/
def prodW : Product :=
  { id := "A", businessId := "B", name := "widget", quantity := 10,
    isConsumable := false, isActive := true, reorderThreshold := some 5,
    optimalQuantity := some 30, sku := "SKU-1", unitOfMeasure := "unit" }

/-- Shared concrete fixture: a one-product database. -/
def dbW : DB := { products := [prodW], movements := [] }

/-! ## Helper lemmas -/

/-- Complete case analysis of `createStockMovement`: exactly one of the five
outcomes (validation failure, unknown product, tenant mismatch, a
quantity-computation failure, success) occurs, each with its exact result. -/
def sellW : StockMovementParams :=
  { productId := "A", businessId := "B", userId := "U",
    type := .SALE, quantity := 3, notes := some "Product sale",
    referenceId := none, referenceType := none }

def dbAfterSellW : DB :=
  { products := [{ prodW with quantity := 7 }]
    movements :=
      [{ productId := "A", type := .SALE, quantity := 3,
         previousQuantity := 10, newQuantity := 7, businessId := "B",
         createdById := "U", notes := some "Product sale",
         referenceId := none, referenceType := none }] }

def sellResW : MovementResult :=
  { stockMovement :=
      { productId := "A", type := .SALE, quantity := 3,
        previousQuantity := 10, newQuantity := 7, businessId := "B",
        createdById := "U", notes := some "Product sale",
        referenceId := none, referenceType := none }
    product := { id := "A", name := "widget", previousQuantity := 10, newQuantity := 7 } }

def sellBigW : StockMovementParams :=
  { productId := "A", businessId := "B", userId := "U",
    type := .SALE, quantity := 999 }

def adjW : StockMovementParams :=
  { productId := "A", businessId := "B", userId := "U",
    type := .ADJUSTMENT, quantity := 15 }

def dbAdjW : DB :=
  { products := [{ prodW with quantity := -5 }]
    movements :=
      [{ productId := "A", type := .ADJUSTMENT, quantity := 15,
         previousQuantity := 10, newQuantity := -5, businessId := "B",
         createdById := "U", notes := none,
         referenceId := none, referenceType := none }] }

def adjResW : MovementResult :=
  { stockMovement :=
      { productId := "A", type := .ADJUSTMENT, quantity := 15,
        previousQuantity := 10, newQuantity := -5, businessId := "B",
        createdById := "U", notes := none,
        referenceId := none, referenceType := none }
    product := { id := "A", name := "widget", previousQuantity := 10, newQuantity := -5 } }

def zeroQtyW : StockMovementParams :=
  { productId := "NO-SUCH-ID", businessId := "C", userId := "U",
    type := .SALE, quantity := 0 }

def foreignW : StockMovementParams :=
  { productId := "A", businessId := "C", userId := "U",
    type := .OTHER "BOGUS", quantity := 999 }

/-- C5 counterexample data: a malformed-input failure. -/
def c5BadQty : StockMovementParams :=
  { productId := "A", businessId := "B", userId := "U",
    type := .PURCHASE, quantity := -2 }

def c5Missing : StockMovementParams :=
  { productId := "GHOST", businessId := "B", userId := "U",
    type := .PURCHASE, quantity := 1 }

/-- C9 counterexample data: an active low-stock product of business `B`
with threshold 100. -/
def lowP (i : String) (q : ℤ) : Product :=
  { id := i, businessId := "B", name := i, quantity := q, isConsumable := false,
    isActive := true, reorderThreshold := some 100, optimalQuantity := none,
    sku := i, unitOfMeasure := "unit" }

def dbMany : DB :=
  { products := [lowP "p01" 1, lowP "p02" 2, lowP "p03" 3, lowP "p04" 4,
      lowP "p05" 5, lowP "p06" 6, lowP "p07" 7, lowP "p08" 8, lowP "p09" 9,
      lowP "p10" 10, lowP "p11" 11, lowP "p12" 12, lowP "p13" 13,
      lowP "p14" 14, lowP "p15" 15, lowP "p16" 16, lowP "p17" 17,
      lowP "p18" 18, lowP "p19" 19, lowP "p20" 20, lowP "p21" 21]
    movements := [] }

/-- C9 counterexample data: a product at quantity -5 (reachable through
ADJUSTMENT) with a configured optimal quantity of 0. -/
def zeroOptimalP : Product :=
  { id := "z", businessId := "B", name := "zed", quantity := -5,
    isConsumable := true, isActive := true, reorderThreshold := some 5,
    optimalQuantity := some 0, sku := "Z", unitOfMeasure := "unit" }

def dbZero : DB := { products := [zeroOptimalP], movements := [] }

instance : IsTotal Product (fun a b => a.quantity ≤ b.quantity) :=
  ⟨fun a b => le_total a.quantity b.quantity⟩

instance : IsTrans Product (fun a b => a.quantity ≤ b.quantity) :=
  ⟨fun _ _ _ hab hbc => le_trans hab hbc⟩

/-- The record `checkReorderStatus` returns for a found product (the
construction from its source, named so proofs can refer to it). -/
def reorderRecord (product : Product) : ReorderStatus :=
  { id := product.id
    name := product.name
    quantity := product.quantity
    reorderThreshold := product.reorderThreshold
    optimalQuantity := product.optimalQuantity
    sku := product.sku
    needsReorder :=
      match product.reorderThreshold with
      | none => false
      | some threshold => decide (product.quantity ≤ threshold)
    reorderAmount :=
      match product.optimalQuantity with
      | none => 0
      | some optimal => max 0 (optimal - product.quantity)
    status :=
      if (match product.reorderThreshold with
          | none => false
          | some threshold => decide (product.quantity ≤ threshold)) = true
        then "LOW_STOCK" else "OK" }

def adjDb5 : DB :=
  { products := [{ prodW with quantity := 5 }]
    movements :=
      [{ productId := "A", type := .ADJUSTMENT, quantity := 5,
         previousQuantity := 10, newQuantity := 5, businessId := "B",
         createdById := "U",
         notes := some "Stock adjustment: count. Added 5 units.",
         referenceId := none, referenceType := none }] }

def adjRes5 : MovementResult :=
  { stockMovement :=
      { productId := "A", type := .ADJUSTMENT, quantity := 5,
        previousQuantity := 10, newQuantity := 5, businessId := "B",
        createdById := "U",
        notes := some "Stock adjustment: count. Added 5 units.",
        referenceId := none, referenceType := none }
    product := { id := "A", name := "widget", previousQuantity := 10, newQuantity := 5 } }

def routeDb5 : DB :=
  { products := [{ prodW with quantity := 5 }]
    movements :=
      [{ productId := "A", type := .ADJUSTMENT, quantity := 5,
         previousQuantity := 10, newQuantity := 5, businessId := "B",
         createdById := "U",
         notes := some "Stock adjustment: Added 5 units: count. Added 5 units.",
         referenceId := none, referenceType := none }] }

def routeResp5 : RouteOk :=
  { message := "Stock added successfully"
    stockMovement :=
      { productId := "A", type := .ADJUSTMENT, quantity := 5,
        previousQuantity := 10, newQuantity := 5, businessId := "B",
        createdById := "U",
        notes := some "Stock adjustment: Added 5 units: count. Added 5 units.",
        referenceId := none, referenceType := none }
    product := { id := "A", name := "widget", previousQuantity := 10, newQuantity := 5 }
    originalQuantity := 5
    absoluteQuantity := 5
    isAddition := true
    reason := "count" }

theorem csm_cases (db : DB) (p : StockMovementParams) :
    (p.quantity ≤ 0 ∧
      createStockMovement db p = (db, .error .quantityNotPositive)) ∨
    (0 < p.quantity ∧ db.findProduct p.productId = none ∧
      createStockMovement db p = (db, .error .productNotFound)) ∨
    (0 < p.quantity ∧ ∃ product, db.findProduct p.productId = some product ∧
      product.businessId ≠ p.businessId ∧
      createStockMovement db p = (db, .error .foreignBusiness)) ∨
    (0 < p.quantity ∧ ∃ product e, db.findProduct p.productId = some product ∧
      product.businessId = p.businessId ∧
      computeNewQuantity product.quantity p.quantity p.type = .error e ∧
      createStockMovement db p = (db, .error e)) ∨
    (0 < p.quantity ∧ ∃ product newQuantity,
      db.findProduct p.productId = some product ∧
      product.businessId = p.businessId ∧
      computeNewQuantity product.quantity p.quantity p.type = .ok newQuantity ∧
      createStockMovement db p =
        ({ products := db.products.map (fun q =>
             if q.id == p.productId then { q with quantity := newQuantity } else q)
           movements := db.movements ++
             [{ productId := p.productId, type := p.type, quantity := p.quantity,
                previousQuantity := product.quantity, newQuantity := newQuantity,
                businessId := p.businessId, createdById := p.userId, notes := p.notes,
                referenceId := p.referenceId, referenceType := p.referenceType }] },
         .ok { stockMovement :=
                { productId := p.productId, type := p.type, quantity := p.quantity,
                  previousQuantity := product.quantity, newQuantity := newQuantity,
                  businessId := p.businessId, createdById := p.userId, notes := p.notes,
                  referenceId := p.referenceId, referenceType := p.referenceType }
               product :=
                { id := product.id, name := product.name,
                  previousQuantity := product.quantity, newQuantity := newQuantity } })) := by
  by_cases hq : p.quantity ≤ 0
  · exact Or.inl ⟨hq, by simp [createStockMovement, hq]⟩
  · have hq' : 0 < p.quantity := lt_of_not_le hq
    rcases hfind : db.findProduct p.productId with _ | product
    · refine Or.inr (Or.inl ⟨hq', rfl, ?_⟩)
      simp [createStockMovement, createStockMovementTx, hq, hfind]
    · by_cases hb : product.businessId = p.businessId
      · rcases hcnq : computeNewQuantity product.quantity p.quantity p.type with e | newQuantity
        · refine Or.inr (Or.inr (Or.inr (Or.inl ⟨hq', product, e, rfl, hb, hcnq, ?_⟩)))
          simp [createStockMovement, createStockMovementTx, hq, hfind, hb, hcnq]
        · refine Or.inr (Or.inr (Or.inr (Or.inr
            ⟨hq', product, newQuantity, rfl, hb, hcnq, ?_⟩)))
          simp [createStockMovement, createStockMovementTx, hq, hfind, hb, hcnq]
      · refine Or.inr (Or.inr (Or.inl ⟨hq', product, rfl, hb, ?_⟩))
        simp [createStockMovement, createStockMovementTx, hq, hfind, hb]

/-- Success characterization of the `switch` on the movement type. -/
theorem cnq_ok {current quantity : ℤ} {ty : StockMovementType} {nq : ℤ}
    (h : computeNewQuantity current quantity ty = .ok nq) :
    ((ty = .PURCHASE ∨ ty = .RETURN) ∧ nq = current + quantity) ∨
    ((ty = .SALE ∨ ty = .SERVICE_USAGE ∨ ty = .ADJUSTMENT) ∧
      nq = current - quantity ∧ (ty ≠ .ADJUSTMENT → 0 ≤ nq)) := by
  cases ty with
  | PURCHASE => simp [computeNewQuantity] at h; exact Or.inl ⟨Or.inl rfl, h.symm⟩
  | RETURN => simp [computeNewQuantity] at h; exact Or.inl ⟨Or.inr rfl, h.symm⟩
  | SALE =>
    rw [computeNewQuantity] at h
    split at h
    · exact absurd h (by simp)
    next hcond =>
      refine Or.inr ⟨Or.inl rfl, by simpa using h.symm, fun _ => ?_⟩
      have := not_and.mp hcond
      simp only [Except.ok.injEq] at h
      rw [← h]
      by_contra hneg
      exact (this (lt_of_not_le (fun hle => hneg (h ▸ hle)))) (by simp)
  | SERVICE_USAGE =>
    rw [computeNewQuantity] at h
    split at h
    · exact absurd h (by simp)
    next hcond =>
      refine Or.inr ⟨Or.inr (Or.inl rfl), by simpa using h.symm, fun _ => ?_⟩
      simp only [Except.ok.injEq] at h
      rw [← h]
      by_contra hneg
      exact (not_and.mp hcond (lt_of_not_le (fun hle => hneg (h ▸ hle)))) (by simp)
  | ADJUSTMENT =>
    rw [computeNewQuantity] at h
    split at h
    · exact absurd h (by simp)
    · exact Or.inr ⟨Or.inr (Or.inr rfl), by simpa using h.symm, fun hne => absurd rfl hne⟩
  | OTHER s => simp [computeNewQuantity] at h

/-- Failure characterization of the `switch` on the movement type. -/
theorem cnq_err {current quantity : ℤ} {ty : StockMovementType} {e : StockErr}
    (h : computeNewQuantity current quantity ty = .error e) :
    (∃ s, ty = .OTHER s ∧ e = .invalidType (.OTHER s)) ∨
    ((ty = .SALE ∨ ty = .SERVICE_USAGE) ∧ current - quantity < 0 ∧
      e = .insufficientStock current quantity) := by
  cases ty with
  | PURCHASE => simp [computeNewQuantity] at h
  | RETURN => simp [computeNewQuantity] at h
  | SALE =>
    rw [computeNewQuantity] at h
    split at h
    next hcond =>
      simp only [Except.error.injEq] at h
      exact Or.inr ⟨Or.inl rfl, hcond.1, h.symm⟩
    · exact absurd h (by simp)
  | SERVICE_USAGE =>
    rw [computeNewQuantity] at h
    split at h
    next hcond =>
      simp only [Except.error.injEq] at h
      exact Or.inr ⟨Or.inr rfl, hcond.1, h.symm⟩
    · exact absurd h (by simp)
  | ADJUSTMENT =>
    rw [computeNewQuantity] at h
    split at h
    next hcond => exact absurd hcond.2 (by simp)
    · exact absurd h (by simp)
  | OTHER s =>
    simp only [computeNewQuantity, Except.error.injEq] at h
    exact Or.inl ⟨s, rfl, h.symm⟩

/-- The quantity update of the transaction rewrites the looked-up row (and
only its `quantity` field) under the same lookup. -/
theorem find?_update (l : List Product) (pid : String) (nq : ℤ)
    (product : Product) (h : l.find? (fun q => q.id == pid) = some product) :
    (l.map (fun q => if q.id == pid then { q with quantity := nq } else q)).find?
        (fun q => q.id == pid) = some { product with quantity := nq } := by
  rw [List.find?_map]
  have hpred : ((fun q : Product => q.id == pid) ∘
      (fun q => if q.id == pid then { q with quantity := nq } else q)) =
      fun q : Product => q.id == pid := by
    funext q
    by_cases hq : (q.id == pid) = true
    · rw [Function.comp_apply, if_pos hq]
    · rw [Function.comp_apply, if_neg hq]
  rw [hpred, h]
  have hid := List.find?_some h
  simp only [Option.map]
  rw [if_pos hid]

/-- With unique ids, lookup by a member's id returns that member. -/
theorem find?_id_of_mem (l : List Product)
    (h : l.Pairwise (fun a b => a.id ≠ b.id)) (p : Product) (hmem : p ∈ l) :
    l.find? (fun q => q.id == p.id) = some p := by
  induction l with
  | nil => cases hmem
  | cons a t ih =>
    rcases List.mem_cons.mp hmem with rfl | ht
    · simp [List.find?]
    · have hne : a.id ≠ p.id := (List.pairwise_cons.mp h).1 p ht
      rw [List.find?_cons_of_neg _ (by simp [hne]),
        ih (List.pairwise_cons.mp h).2 ht]

/-! ## Claims -/

/-- C1: every successful `createStockMovement` produces a movement whose
`previousQuantity` is the product quantity read at the start of the call,
whose `newQuantity` equals `previousQuantity + quantity` for PURCHASE and
RETURN and `previousQuantity - quantity` for SALE, SERVICE_USAGE and
ADJUSTMENT, and leaves the product's stored quantity equal to the
movement's `newQuantity`. -/
theorem stock_movement_arithmetic (db : DB) (p : StockMovementParams)
    (db' : DB) (r : MovementResult)
    (h : createStockMovement db p = (db', Except.ok r)) :
    (∃ product, db.findProduct p.productId = some product ∧
        r.stockMovement.previousQuantity = product.quantity) ∧
    r.stockMovement.quantity = p.quantity ∧
    ((p.type = .PURCHASE ∨ p.type = .RETURN) →
        r.stockMovement.newQuantity = r.stockMovement.previousQuantity + p.quantity) ∧
    ((p.type = .SALE ∨ p.type = .SERVICE_USAGE ∨ p.type = .ADJUSTMENT) →
        r.stockMovement.newQuantity = r.stockMovement.previousQuantity - p.quantity) ∧
    (∃ updated, db'.findProduct p.productId = some updated ∧
        updated.quantity = r.stockMovement.newQuantity) := by
  rcases csm_cases db p with ⟨_, heq⟩ | ⟨_, _, heq⟩ | ⟨_, _, _, _, heq⟩ |
    ⟨_, _, _, _, _, _, heq⟩ | ⟨_, product, newQuantity, hfind, _, hcnq, heq⟩ <;>
    rw [heq] at h
  · exact absurd h (by simp)
  · exact absurd h (by simp)
  · exact absurd h (by simp)
  · exact absurd h (by simp)
  · injection h with hdb hr
    injection hr with hr
    subst hdb
    subst hr
    refine ⟨⟨product, hfind, rfl⟩, rfl, ?_, ?_, ?_⟩
    · intro hty
      rcases cnq_ok hcnq with ⟨_, hnq⟩ | ⟨hty2, _, _⟩
      · exact hnq
      · exfalso
        rcases hty with hty | hty <;> rw [hty] at hty2 <;>
          rcases hty2 with h2 | h2 | h2 <;> simp at h2
    · intro hty
      rcases cnq_ok hcnq with ⟨hty2, _⟩ | ⟨_, hnq, _⟩
      · exfalso
        rcases hty with hty | hty | hty <;> rw [hty] at hty2 <;>
          rcases hty2 with h2 | h2 <;> simp at h2
      · exact hnq
    · exact ⟨{ product with quantity := newQuantity },
        find?_update db.products p.productId newQuantity product hfind, rfl⟩

/-- Witness for C1 at a concrete SALE of 3 units from quantity 10. -/
theorem stock_movement_arithmetic_witness :
    createStockMovement dbW sellW = (dbAfterSellW, Except.ok sellResW) ∧
    (∃ product, dbW.findProduct sellW.productId = some product ∧
        sellResW.stockMovement.previousQuantity = product.quantity) ∧
    sellResW.stockMovement.newQuantity =
      sellResW.stockMovement.previousQuantity - sellW.quantity ∧
    (∃ updated, dbAfterSellW.findProduct sellW.productId = some updated ∧
        updated.quantity = sellResW.stockMovement.newQuantity) := by
  have h := stock_movement_arithmetic dbW sellW dbAfterSellW sellResW (by decide)
  exact ⟨by decide, h.1, h.2.2.2.1 (Or.inl rfl), h.2.2.2.2⟩

/-- A successful non-ADJUSTMENT call preserves non-negativity of every
product quantity (failed calls leave the state unchanged). -/
theorem step_preserves_nonneg (db : DB) (p : StockMovementParams)
    (hty : p.type ≠ .ADJUSTMENT)
    (hnn : ∀ q ∈ db.products, 0 ≤ q.quantity) :
    ∀ q ∈ (createStockMovement db p).1.products, 0 ≤ q.quantity := by
  rcases csm_cases db p with ⟨_, heq⟩ | ⟨_, _, heq⟩ | ⟨_, _, _, _, heq⟩ |
    ⟨_, _, _, _, _, _, heq⟩ | ⟨hq, product, newQuantity, hfind, _, hcnq, heq⟩ <;>
    rw [heq]
  · exact hnn
  · exact hnn
  · exact hnn
  · exact hnn
  · intro q hq'
    simp only [List.mem_map] at hq'
    rcases hq' with ⟨x, hx, rfl⟩
    by_cases hxid : (x.id == p.productId) = true
    · rw [if_pos hxid]
      show 0 ≤ newQuantity
      rcases cnq_ok hcnq with ⟨_, hnq⟩ | ⟨_, _, himp⟩
      · have hprod : product ∈ db.products := List.mem_of_find?_eq_some hfind
        have h1 := hnn product hprod
        omega
      · exact himp hty
    · rw [if_neg hxid]
      exact hnn x hx

theorem runCalls_cons (db : DB) (c : StockMovementParams)
    (cs : List StockMovementParams) :
    runCalls db (c :: cs) = runCalls (createStockMovement db c).1 cs := rfl

theorem runCalls_nonneg (calls : List StockMovementParams) :
    ∀ db : DB, (∀ c ∈ calls, c.type ≠ .ADJUSTMENT) →
      (∀ q ∈ db.products, 0 ≤ q.quantity) →
      ∀ q ∈ (runCalls db calls).products, 0 ≤ q.quantity := by
  induction calls with
  | nil => exact fun db _ hnn => hnn
  | cons c cs ih =>
    intro db hty hnn
    rw [runCalls_cons]
    exact ih _ (fun x hx => hty x (List.mem_cons_of_mem c hx))
      (step_preserves_nonneg db c (hty c (List.mem_cons_self c cs)) hnn)

/-- The movement-type `switch` rejects a floor-enforced subtractive movement
that would go negative, reporting the available and required amounts. -/
theorem cnq_insufficient (current quantity : ℤ) (ty : StockMovementType)
    (hty : ty = .SALE ∨ ty = .SERVICE_USAGE) (hneg : current - quantity < 0) :
    computeNewQuantity current quantity ty =
      .error (.insufficientStock current quantity) := by
  rcases hty with rfl | rfl <;> simp [computeNewQuantity, hneg]

/-- C2: starting from non-negative quantities, no sequence of
non-ADJUSTMENT calls can drive any quantity below 0; a floor-enforced
subtractive call that would go negative fails with the insufficient-stock
error and persists nothing; and a successful call taking a non-negative
quantity to a negative one can only be an ADJUSTMENT. -/
theorem floor_invariant :
    (∀ (db : DB) (calls : List StockMovementParams),
      (∀ c ∈ calls, c.type ≠ StockMovementType.ADJUSTMENT) →
      (∀ q ∈ db.products, 0 ≤ q.quantity) →
      ∀ q ∈ (runCalls db calls).products, 0 ≤ q.quantity) ∧
    (∀ (db : DB) (p : StockMovementParams) (product : Product),
      0 < p.quantity →
      db.findProduct p.productId = some product →
      product.businessId = p.businessId →
      (p.type = StockMovementType.SALE ∨ p.type = StockMovementType.SERVICE_USAGE) →
      product.quantity - p.quantity < 0 →
      createStockMovement db p =
        (db, Except.error (StockErr.insufficientStock product.quantity p.quantity))) ∧
    (∀ (db : DB) (p : StockMovementParams) (db' : DB) (r : MovementResult),
      createStockMovement db p = (db', Except.ok r) →
      0 ≤ r.stockMovement.previousQuantity →
      r.stockMovement.newQuantity < 0 →
      p.type = StockMovementType.ADJUSTMENT) := by
  refine ⟨fun db calls => runCalls_nonneg calls db, ?_, ?_⟩
  · intro db p product hq hfind hb hty hneg
    have hq' : ¬ p.quantity ≤ 0 := not_le.mpr hq
    simp [createStockMovement, createStockMovementTx, hq', hfind, hb,
      cnq_insufficient product.quantity p.quantity p.type hty hneg]
  · intro db p db' r h hprev hneg
    rcases csm_cases db p with ⟨_, heq⟩ | ⟨_, _, heq⟩ | ⟨_, _, _, _, heq⟩ |
      ⟨_, _, _, _, _, _, heq⟩ | ⟨hq, product, newQuantity, hfind, _, hcnq, heq⟩ <;>
      rw [heq] at h
    · exact absurd h (by simp)
    · exact absurd h (by simp)
    · exact absurd h (by simp)
    · exact absurd h (by simp)
    · injection h with hdb hr
      injection hr with hr
      subst hr
      rcases cnq_ok hcnq with ⟨_, hnq⟩ | ⟨_, _, himp⟩
      · exfalso
        have hprev' : (0:ℤ) ≤ product.quantity := hprev
        have hneg' : newQuantity < 0 := hneg
        omega
      · by_contra hne
        have h0 : (0:ℤ) ≤ newQuantity := himp hne
        have hneg' : newQuantity < 0 := hneg
        omega

/-- Witness data for C2: a SALE that would overdraw, and an ADJUSTMENT that
goes negative. -/
theorem floor_invariant_witness :
    (∀ c ∈ [sellW], c.type ≠ StockMovementType.ADJUSTMENT) ∧
    (∀ q ∈ dbW.products, 0 ≤ q.quantity) ∧
    (∀ q ∈ (runCalls dbW [sellW]).products, 0 ≤ q.quantity) ∧
    createStockMovement dbW sellBigW =
      (dbW, Except.error (StockErr.insufficientStock 10 999)) ∧
    createStockMovement dbW adjW = (dbAdjW, Except.ok adjResW) ∧
    adjW.type = StockMovementType.ADJUSTMENT := by
  refine ⟨by decide, by decide, ?_, ?_, by decide, ?_⟩
  · exact floor_invariant.1 dbW [sellW] (by decide) (by decide)
  · exact floor_invariant.2.1 dbW sellBigW prodW (by decide) (by decide)
      (by decide) (Or.inl rfl) (by decide)
  · exact floor_invariant.2.2 dbW adjW dbAdjW adjResW (by decide)
      (by decide) (by decide)

/-- C3: every failing call leaves the database exactly as it was (no
movement row, no quantity change), and a non-positive quantity fails with
the validation error before the transaction, i.e. uniformly in the
database state. -/
theorem failure_rollback (db : DB) (p : StockMovementParams) :
    (∀ e, (createStockMovement db p).2 = Except.error e →
      (createStockMovement db p).1 = db) ∧
    (p.quantity ≤ 0 →
      createStockMovement db p = (db, Except.error StockErr.quantityNotPositive)) := by
  constructor
  · intro e he
    rcases csm_cases db p with ⟨_, heq⟩ | ⟨_, _, heq⟩ | ⟨_, _, _, _, heq⟩ |
      ⟨_, _, _, _, _, _, heq⟩ | ⟨_, _, _, _, _, _, heq⟩ <;> rw [heq]
    rw [heq] at he
    exact absurd he (by simp)
  · intro hq
    simp [createStockMovement, hq]

/-- Witness for C3: a zero-quantity call against an unknown product fails
with the validation error and leaves the database untouched. -/
theorem failure_rollback_witness :
    zeroQtyW.quantity ≤ 0 ∧
    createStockMovement dbW zeroQtyW =
      (dbW, Except.error StockErr.quantityNotPositive) ∧
    (createStockMovement dbW zeroQtyW).1 = dbW := by
  refine ⟨by decide, (failure_rollback dbW zeroQtyW).2 (by decide), ?_⟩
  exact (failure_rollback dbW zeroQtyW).1 StockErr.quantityNotPositive (by decide)

/-- C4: when the looked-up product belongs to another business the call
never mutates state; whenever the lookup is reached (positive quantity) it
fails with the tenant-mismatch error carrying the message
`Product does not belong to this business`, for every movement type and
magnitude; a non-positive quantity fails even earlier, with the
validation error. -/
theorem tenant_isolation (db : DB) (p : StockMovementParams) (product : Product)
    (hfind : db.findProduct p.productId = some product)
    (hmis : product.businessId ≠ p.businessId) :
    (createStockMovement db p).1 = db ∧
    (0 < p.quantity →
      (createStockMovement db p).2 = Except.error StockErr.foreignBusiness) ∧
    StockErr.message StockErr.foreignBusiness =
      "Product does not belong to this business" ∧
    (p.quantity ≤ 0 →
      (createStockMovement db p).2 = Except.error StockErr.quantityNotPositive) := by
  have hmain : ∀ _ : ¬ p.quantity ≤ 0,
      createStockMovement db p = (db, .error .foreignBusiness) := fun hq => by
    simp [createStockMovement, createStockMovementTx, hq, hfind, hmis]
  refine ⟨?_, ?_, rfl, ?_⟩
  · by_cases hq : p.quantity ≤ 0
    · simp [createStockMovement, hq]
    · rw [hmain hq]
  · intro hq
    rw [hmain (not_le.mpr hq)]
  · intro hq
    simp [createStockMovement, hq]

/-- Witness for C4: a foreign-business caller with an invalid movement type
and an overdrawing magnitude still gets exactly the tenant-mismatch
error. -/
theorem tenant_isolation_witness :
    dbW.findProduct foreignW.productId = some prodW ∧
    prodW.businessId ≠ foreignW.businessId ∧
    (createStockMovement dbW foreignW).1 = dbW ∧
    (createStockMovement dbW foreignW).2 =
      Except.error StockErr.foreignBusiness := by
  have h := tenant_isolation dbW foreignW prodW (by decide) (by decide)
  exact ⟨by decide, by decide, h.1, h.2.1 (by decide)⟩

/-- C5 counterexample: the errors raised for two different failure
conditions (malformed input and unknown product) carry the identical
runtime type tag `StockError` — the source has one error class, so the four
failure kinds are not distinguishable by the caller as distinct types. -/
theorem single_error_class_counterexample :
    (createStockMovement dbW c5BadQty).2 =
      Except.error StockErr.quantityNotPositive ∧
    (createStockMovement dbW c5Missing).2 =
      Except.error StockErr.productNotFound ∧
    StockErr.errName StockErr.quantityNotPositive =
      StockErr.errName StockErr.productNotFound ∧
    StockErr.errName StockErr.quantityNotPositive = "StockError" := by decide

/-- C5 (amended): `createStockMovement` fails for exactly the four
conditions, each raised if and only if its condition holds (in validation
order), all through the single `StockError` class; the insufficient-stock
failure carries the available and requested quantities; the call is never
silent. -/
theorem error_taxonomy (db : DB) (p : StockMovementParams) :
    (∀ e, (createStockMovement db p).2 = Except.error e →
      e.errName = "StockError") ∧
    ((createStockMovement db p).2 = Except.error StockErr.quantityNotPositive ↔
      p.quantity ≤ 0) ∧
    ((createStockMovement db p).2 = Except.error StockErr.productNotFound ↔
      0 < p.quantity ∧ db.findProduct p.productId = none) ∧
    ((createStockMovement db p).2 = Except.error StockErr.foreignBusiness ↔
      0 < p.quantity ∧ ∃ product, db.findProduct p.productId = some product ∧
        product.businessId ≠ p.businessId) ∧
    (∀ available required,
      (createStockMovement db p).2 =
          Except.error (StockErr.insufficientStock available required) ↔
        0 < p.quantity ∧ ∃ product, db.findProduct p.productId = some product ∧
          product.businessId = p.businessId ∧
          (p.type = StockMovementType.SALE ∨
            p.type = StockMovementType.SERVICE_USAGE) ∧
          product.quantity - p.quantity < 0 ∧
          available = product.quantity ∧ required = p.quantity) ∧
    (∀ t, (createStockMovement db p).2 = Except.error (StockErr.invalidType t) ↔
      0 < p.quantity ∧ ∃ product s, db.findProduct p.productId = some product ∧
        product.businessId = p.businessId ∧
        p.type = StockMovementType.OTHER s ∧ t = StockMovementType.OTHER s) ∧
    ((∃ r, (createStockMovement db p).2 = Except.ok r) ∨
      (∃ e, (createStockMovement db p).2 = Except.error e)) := by
  rcases csm_cases db p with ⟨hq, heq⟩ | ⟨hq, hfind, heq⟩ |
    ⟨hq, product, hfind, hb, heq⟩ | ⟨hq, product, e, hfind, hb, hcnq, heq⟩ |
    ⟨hq, product, newQuantity, hfind, hb, hcnq, heq⟩
  · refine ⟨fun e _ => rfl, ?_, ?_, ?_, ?_, ?_,
      Or.inr ⟨.quantityNotPositive, by simp [heq]⟩⟩
    · simp [heq, hq]
    · simp [heq, not_lt.mpr hq]
    · simp [heq, not_lt.mpr hq]
    · intro available required
      simp [heq, not_lt.mpr hq]
    · intro t
      simp [heq, not_lt.mpr hq]
  · refine ⟨fun e _ => rfl, ?_, ?_, ?_, ?_, ?_,
      Or.inr ⟨.productNotFound, by simp [heq]⟩⟩
    · simp [heq, not_le.mpr hq]
    · simp [heq, hq, hfind]
    · simp [heq, hfind]
    · intro available required
      simp [heq, hfind]
    · intro t
      simp [heq, hfind]
  · refine ⟨fun e _ => rfl, ?_, ?_, ?_, ?_, ?_,
      Or.inr ⟨.foreignBusiness, by simp [heq]⟩⟩
    · simp [heq, not_le.mpr hq]
    · simp [heq, hfind]
    · simp [heq, hq, hfind, hb]
    · intro available required
      simp [heq, hfind, hb]
    · intro t
      simp [heq, hfind, hb]
  · rcases cnq_err hcnq with ⟨s, hts, he⟩ | ⟨hty, hneg, he⟩
    · subst he
      refine ⟨fun e _ => rfl, ?_, ?_, ?_, ?_, ?_,
        Or.inr ⟨_, by rw [heq]⟩⟩
      · simp [heq, not_le.mpr hq]
      · simp [heq, hfind]
      · simp [heq, hfind, hb]
      · intro available required
        simp [heq, hfind, hts]
      · intro t
        simp [heq, hq, hfind, hb, hts, eq_comm]
    · subst he
      rcases hty with hty | hty
      · refine ⟨fun e _ => rfl, ?_, ?_, ?_, ?_, ?_,
          Or.inr ⟨_, by rw [heq]⟩⟩
        · simp [heq, not_le.mpr hq]
        · simp [heq, hfind]
        · simp [heq, hfind, hb]
        · intro available required
          simp [heq, hq, hfind, hb, hty, hneg, and_assoc]
          omega
        · intro t
          simp [heq, hfind, hty]
      · refine ⟨fun e _ => rfl, ?_, ?_, ?_, ?_, ?_,
          Or.inr ⟨_, by rw [heq]⟩⟩
        · simp [heq, not_le.mpr hq]
        · simp [heq, hfind]
        · simp [heq, hfind, hb]
        · intro available required
          simp [heq, hq, hfind, hb, hty, hneg, and_assoc]
          omega
        · intro t
          simp [heq, hfind, hty]
  · refine ⟨fun e he => rfl, ?_, ?_, ?_, ?_, ?_,
      Or.inl ⟨_, by rw [heq]⟩⟩
    · simp [heq, not_le.mpr hq]
    · simp [heq, hfind]
    · simp [heq, hfind, hb]
    · intro available required
      simp only [heq]
      constructor
      · intro habs
        exact absurd habs (by simp)
      · rintro ⟨_, product2, hfind2, _, hty, hneg, _, _⟩
        rw [hfind] at hfind2
        injection hfind2 with hpp
        subst hpp
        rw [cnq_insufficient product.quantity p.quantity p.type hty hneg] at hcnq
        exact absurd hcnq (by simp)
    · intro t
      simp only [heq]
      constructor
      · intro habs
        exact absurd habs (by simp)
      · rintro ⟨_, product2, s, hfind2, _, hts, _⟩
        rw [hts] at hcnq
        exact absurd hcnq (by simp [computeNewQuantity])

/-- Witness for C5's amended taxonomy at a concrete insufficient-stock
call. -/
theorem error_taxonomy_witness :
    (createStockMovement dbW sellBigW).2 =
      Except.error (StockErr.insufficientStock 10 999) ∧
    StockErr.errName (StockErr.insufficientStock 10 999) = "StockError" := by
  have h := error_taxonomy dbW sellBigW
  refine ⟨(h.2.2.2.2.1 10 999).mpr ?_, rfl⟩
  exact ⟨by decide, prodW, by decide, by decide, Or.inl (by decide),
    by decide, by decide, by decide⟩

/-- C8: `checkReorderStatus` flags reorder exactly when a threshold is
configured and the quantity is at or below it; `reorderAmount` is
`max 0 (optimal - quantity)` when an optimal quantity is configured and 0
otherwise; the status label is `LOW_STOCK` exactly when reorder is needed,
else `OK`; an unresolved product id fails with the not-found error. -/
theorem reorder_status_correct (db : DB) (productId : String) :
    (db.findProduct productId = none →
      checkReorderStatus db productId = Except.error StockErr.productNotFound) ∧
    (∀ product, db.findProduct productId = some product →
      ∃ rs, checkReorderStatus db productId = Except.ok rs ∧
        rs.quantity = product.quantity ∧
        (rs.needsReorder = true ↔
          ∃ threshold, product.reorderThreshold = some threshold ∧
            product.quantity ≤ threshold) ∧
        (∀ optimal, product.optimalQuantity = some optimal →
          rs.reorderAmount = max 0 (optimal - product.quantity)) ∧
        (product.optimalQuantity = none → rs.reorderAmount = 0) ∧
        (rs.status = "LOW_STOCK" ↔ rs.needsReorder = true) ∧
        (rs.status = "OK" ↔ rs.needsReorder = false)) := by
  constructor
  · intro hnone
    simp [checkReorderStatus, hnone]
  · intro product hfind
    simp only [checkReorderStatus, hfind]
    refine ⟨_, rfl, rfl, ?_, ?_, ?_, ?_, ?_⟩
    · rcases hth : product.reorderThreshold with _ | threshold <;> simp [hth]
    · intro optimal hopt
      simp [hopt]
    · intro hopt
      simp [hopt]
    · rcases hth : product.reorderThreshold with _ | threshold
      · simp [hth]
      · by_cases hle : product.quantity ≤ threshold <;> simp [hth, hle]
    · rcases hth : product.reorderThreshold with _ | threshold
      · simp [hth]
      · by_cases hle : product.quantity ≤ threshold <;> simp [hth, hle]

/-- Witness for C8: the not-found arm at `GHOST` and the derived fields at
the concrete product `A` (quantity 10, threshold 5, optimal 30). -/
theorem reorder_status_witness :
    dbW.findProduct "GHOST" = none ∧
    checkReorderStatus dbW "GHOST" = Except.error StockErr.productNotFound ∧
    dbW.findProduct "A" = some prodW ∧
    (∃ rs, checkReorderStatus dbW "A" = Except.ok rs ∧
      rs.quantity = prodW.quantity ∧
      (rs.needsReorder = true ↔
        ∃ threshold, prodW.reorderThreshold = some threshold ∧
          prodW.quantity ≤ threshold) ∧
      (∀ optimal, prodW.optimalQuantity = some optimal →
        rs.reorderAmount = max 0 (optimal - prodW.quantity)) ∧
      (prodW.optimalQuantity = none → rs.reorderAmount = 0) ∧
      (rs.status = "LOW_STOCK" ↔ rs.needsReorder = true) ∧
      (rs.status = "OK" ↔ rs.needsReorder = false)) := by
  refine ⟨by decide, (reorder_status_correct dbW "GHOST").1 (by decide),
    by decide, (reorder_status_correct dbW "A").2 prodW (by decide)⟩

/-- `checkReorderStatus` at a resolving id returns the `reorderRecord` of
the found product. -/
theorem checkReorderStatus_found (db : DB) (productId : String)
    (product : Product) (h : db.findProduct productId = some product) :
    checkReorderStatus db productId = Except.ok (reorderRecord product) := by
  simp only [checkReorderStatus, h, reorderRecord]

/-- C9 counterexample: with 21 qualifying products the listing returns only
20 and omits the highest-quantity one, so it does not list all qualifying
products; and at a configured optimal quantity of 0 with negative stock the
listing reports reorderAmount 0 while checkReorderStatus reports 5, so the
annotations are not those of checkReorderStatus. -/
theorem low_stock_counterexample :
    lowStockFilter "B" (lowP "p21" 21) = true ∧
    lowP "p21" 21 ∈ dbMany.products ∧
    (dbMany.products.filter (lowStockFilter "B")).length = 21 ∧
    (getLowStockProducts dbMany "B").length = 20 ∧
    ((getLowStockProducts dbMany "B").map LowStockItem.id).contains "p21" = false ∧
    (getLowStockProducts dbZero "B").map LowStockItem.reorderAmount = [0] ∧
    (checkReorderStatus dbZero "z").map ReorderStatus.reorderAmount =
      Except.ok 5 := by decide

/-- C9 (amended): the listing returns at most 20 items, sorted ascending by
quantity, each a qualifying (active, thresholded, at-or-below) product of
the business annotated with needsReorder and status exactly as
checkReorderStatus, and with checkReorderStatus's reorderAmount except when
optimalQuantity is exactly 0 (treated as unconfigured: 0 is reported); and
when at most 20 products qualify, every qualifying product is listed. -/
theorem low_stock_listing (db : DB) (businessId : String)
    (hids : db.uniqueIds) :
    (getLowStockProducts db businessId).length ≤ 20 ∧
    List.Pairwise (fun a b : LowStockItem => a.quantity ≤ b.quantity)
      (getLowStockProducts db businessId) ∧
    (∀ item ∈ getLowStockProducts db businessId,
      ∃ product rs, product ∈ db.products ∧
        lowStockFilter businessId product = true ∧
        item.id = product.id ∧ item.quantity = product.quantity ∧
        checkReorderStatus db item.id = Except.ok rs ∧
        rs.needsReorder = true ∧
        item.needsReorder = rs.needsReorder ∧
        item.status = rs.status ∧
        (rs.optimalQuantity ≠ some 0 → item.reorderAmount = rs.reorderAmount) ∧
        (rs.optimalQuantity = some 0 → item.reorderAmount = 0)) ∧
    ((db.products.filter (lowStockFilter businessId)).length ≤ 20 →
      ∀ product ∈ db.products, lowStockFilter businessId product = true →
        product.id ∈ (getLowStockProducts db businessId).map LowStockItem.id) := by
  refine ⟨?_, ?_, ?_, ?_⟩
  · simp only [getLowStockProducts]
    rw [List.length_map, List.length_take]
    exact min_le_left _ _
  · simp only [getLowStockProducts]
    refine List.pairwise_map.mpr ?_
    exact (List.Pairwise.sublist (List.take_sublist _ _)
      (List.sorted_insertionSort _ _)).imp (fun hab => hab)
  · intro item hitem
    simp only [getLowStockProducts, List.mem_map] at hitem
    obtain ⟨product, hpTake, rfl⟩ := hitem
    have hpS := List.mem_of_mem_take hpTake
    have hpL : product ∈ db.products.filter (lowStockFilter businessId) :=
      (List.perm_insertionSort _ _).mem_iff.mp hpS
    obtain ⟨hmem, hfilt⟩ := List.mem_filter.mp hpL
    have hfindp : db.findProduct product.id = some product :=
      find?_id_of_mem db.products hids product hmem
    have hfilt' := hfilt
    simp only [lowStockFilter, Bool.and_eq_true] at hfilt'
    obtain ⟨⟨hbus, hact⟩, hth⟩ := hfilt'
    rcases hth2 : product.reorderThreshold with _ | threshold
    · rw [hth2] at hth
      exact absurd hth (by simp)
    · rw [hth2] at hth
      have hle : product.quantity ≤ threshold := by simpa using hth
      refine ⟨product, reorderRecord product, hmem, hfilt, rfl, rfl,
        checkReorderStatus_found db _ product hfindp, ?_, ?_, ?_, ?_, ?_⟩
      · simp [reorderRecord, hth2, hle]
      · simp [reorderRecord, hth2, hle]
      · simp [reorderRecord, hth2, hle]
      · intro hne
        simp only [reorderRecord] at hne
        rcases hopt : product.optimalQuantity with _ | o
        · simp [reorderRecord, hopt]
        · have ho : o ≠ 0 := by
            intro h0
            exact hne (by rw [hopt, h0])
          simp [reorderRecord, hopt, ho]
      · intro he0
        simp only [reorderRecord] at he0
        simp [he0]
  · intro hlen product hmem hfilt
    have hpL : product ∈ db.products.filter (lowStockFilter businessId) :=
      List.mem_filter.mpr ⟨hmem, hfilt⟩
    have hSlen : (List.insertionSort (fun a b : Product => a.quantity ≤ b.quantity)
        (db.products.filter (lowStockFilter businessId))).length =
        (db.products.filter (lowStockFilter businessId)).length :=
      (List.perm_insertionSort _ _).length_eq
    have htake : (List.insertionSort (fun a b : Product => a.quantity ≤ b.quantity)
        (db.products.filter (lowStockFilter businessId))).take 20 =
        List.insertionSort (fun a b : Product => a.quantity ≤ b.quantity)
          (db.products.filter (lowStockFilter businessId)) :=
      List.take_of_length_le (by omega)
    have hpS : product ∈ List.insertionSort
        (fun a b : Product => a.quantity ≤ b.quantity)
        (db.products.filter (lowStockFilter businessId)) :=
      (List.perm_insertionSort _ _).mem_iff.mpr hpL
    simp only [getLowStockProducts, htake, List.map_map]
    exact List.mem_map.mpr ⟨product, hpS, rfl⟩

/-- Witness for C9's amended listing on the one-product state `dbZero`. -/
theorem low_stock_listing_witness :
    dbZero.uniqueIds ∧
    (getLowStockProducts dbZero "B").length ≤ 20 ∧
    (dbZero.products.filter (lowStockFilter "B")).length ≤ 20 ∧
    zeroOptimalP ∈ dbZero.products ∧
    lowStockFilter "B" zeroOptimalP = true ∧
    zeroOptimalP.id ∈ (getLowStockProducts dbZero "B").map LowStockItem.id := by
  have hu : dbZero.uniqueIds := by simp [DB.uniqueIds, dbZero]
  refine ⟨hu, (low_stock_listing dbZero "B" hu).1, by decide, by decide,
    by decide, ?_⟩
  exact (low_stock_listing dbZero "B" hu).2.2.2 (by decide) zeroOptimalP
    (by decide) (by decide)

/-- Characterization of a successful `adjustStock` call: ADJUSTMENT with the
absolute magnitude, always subtracting, with the direction-describing
note. -/
theorem adjustStock_ok (db : DB) (productId businessId userId : String)
    (q : ℤ) (reason : String) (db' : DB) (r : MovementResult)
    (h : adjustStock db productId businessId userId q reason =
      (db', Except.ok r)) :
    r.stockMovement.type = StockMovementType.ADJUSTMENT ∧
    r.stockMovement.quantity = |q| ∧
    r.stockMovement.newQuantity = r.stockMovement.previousQuantity - |q| ∧
    r.stockMovement.notes = some ("Stock adjustment: " ++ reason ++ ". " ++
      (if 0 ≤ q then "Added" else "Deducted") ++ " " ++
      toString (|q|) ++ " units.") := by
  rw [adjustStock] at h
  rcases csm_cases db
      { productId := productId, businessId := businessId, userId := userId,
        type := .ADJUSTMENT, quantity := |q|,
        notes := some ("Stock adjustment: " ++ reason ++ ". " ++
          (if 0 ≤ q then "Added" else "Deducted") ++ " " ++
          toString (|q|) ++ " units.")
        referenceId := none, referenceType := none } with
    ⟨_, heq⟩ | ⟨_, _, heq⟩ | ⟨_, _, _, _, heq⟩ | ⟨_, _, _, _, _, _, heq⟩ |
    ⟨_, product, newQuantity, hfind, _, hcnq, heq⟩ <;> rw [heq] at h
  · exact absurd h (by simp)
  · exact absurd h (by simp)
  · exact absurd h (by simp)
  · exact absurd h (by simp)
  · injection h with hdb hr
    injection hr with hr
    subst hr
    refine ⟨rfl, rfl, ?_, rfl⟩
    rcases cnq_ok hcnq with ⟨h1 | h1, _⟩ | ⟨_, hnq, _⟩
    · exact absurd h1 (by simp)
    · exact absurd h1 (by simp)
    · exact hnq

/-- C10: `adjustStock` hands the engine the absolute magnitude with type
ADJUSTMENT, which always subtracts; hence a successful adjustment yields
`newQuantity = previousQuantity - |q|` even for a positive signed delta,
while the recorded note says `Added` whenever `q ≥ 0`, and the adjust-stock
route reports `Stock added successfully` whenever `q > 0`. -/
theorem adjust_stock_signed (db : DB) (productId businessId userId : String)
    (q : ℤ) (reason : String) (hq : q ≠ 0) :
    (∀ db' r, adjustStock db productId businessId userId q reason =
        (db', Except.ok r) →
      r.stockMovement.type = StockMovementType.ADJUSTMENT ∧
      r.stockMovement.quantity = |q| ∧
      r.stockMovement.newQuantity = r.stockMovement.previousQuantity - |q| ∧
      (0 < q → r.stockMovement.notes =
        some ("Stock adjustment: " ++ reason ++ ". " ++ "Added" ++ " " ++
          toString (|q|) ++ " units."))) ∧
    (∀ db' resp, adjustStockRoute db productId businessId userId q reason =
        (db', Except.ok resp) →
      resp.stockMovement.type = StockMovementType.ADJUSTMENT ∧
      resp.stockMovement.newQuantity =
        resp.stockMovement.previousQuantity - |q| ∧
      (0 < q → resp.message = "Stock added successfully")) := by
  constructor
  · intro db' r h
    obtain ⟨hty, hqty, hnew, hnotes⟩ :=
      adjustStock_ok db productId businessId userId q reason db' r h
    refine ⟨hty, hqty, hnew, fun hqpos => ?_⟩
    rw [hnotes, if_pos (le_of_lt hqpos)]
  · intro db' resp h
    rw [adjustStockRoute] at h
    split at h
    · exact absurd h (by simp)
    next hvalid =>
      dsimp only [] at h
      split at h
      · exact absurd h (by simp)
      next prodB hfindB =>
        split at h
        next dbAfter result heqAdj =>
          injection h with hdb hr
          injection hr with hr
          subst hr
          obtain ⟨hty, hqty, hnew, _⟩ :=
            adjustStock_ok db productId businessId userId (|q|) _ dbAfter
              result heqAdj
          refine ⟨hty, ?_, fun hqpos => ?_⟩
          · show result.stockMovement.newQuantity =
              result.stockMovement.previousQuantity - |q|
            rw [hnew, abs_abs]
          · have hcond : decide (0 < q) = true := by simpa using hqpos
            show ("Stock " ++
              (if decide (0 < q) = true then "added" else "deducted") ++
              " successfully") = "Stock added successfully"
            rw [if_pos hcond]
            decide
        next e heqAdj => exact absurd h (by simp)

/-- Witness data for C10: adjusting by +5 from quantity 10 lands at 5. -/
theorem adjust_stock_signed_witness :
    (5:ℤ) ≠ 0 ∧
    adjustStock dbW "A" "B" "U" 5 "count" = (adjDb5, Except.ok adjRes5) ∧
    (adjRes5.stockMovement.type = StockMovementType.ADJUSTMENT ∧
      adjRes5.stockMovement.quantity = |(5:ℤ)| ∧
      adjRes5.stockMovement.newQuantity =
        adjRes5.stockMovement.previousQuantity - |(5:ℤ)| ∧
      (0 < (5:ℤ) → adjRes5.stockMovement.notes =
        some ("Stock adjustment: " ++ "count" ++ ". " ++ "Added" ++ " " ++
          toString (|(5:ℤ)|) ++ " units."))) ∧
    adjustStockRoute dbW "A" "B" "U" 5 "count" =
      (routeDb5, Except.ok routeResp5) ∧
    (routeResp5.stockMovement.type = StockMovementType.ADJUSTMENT ∧
      routeResp5.stockMovement.newQuantity =
        routeResp5.stockMovement.previousQuantity - |(5:ℤ)| ∧
      (0 < (5:ℤ) → routeResp5.message = "Stock added successfully")) := by
  have h := adjust_stock_signed dbW "A" "B" "U" 5 "count" (by decide)
  exact ⟨by decide, by decide, h.1 adjDb5 adjRes5 (by decide), by decide,
    h.2 routeDb5 routeResp5 (by decide)⟩

end Spaza
